import Mathlib

/-!
Shallow embedding of the bodgestr gesture-recognition core
(src/recognizer.rs, src/event.rs, src/config.rs) and proofs about it.

Modelling conventions:
* `f64` values (coordinates, thresholds, seconds) are modelled as `ℝ`.
* `std::time::Instant` is modelled as a point `ℝ` on a monotone clock;
  `Instant::duration_since` / `elapsed` saturate at zero, modelled by
  `durationSince`.  Every call of `Instant::now()` in the Rust code is
  modelled by an explicit `now : ℝ` argument; `process_touch_events`
  therefore consumes events paired with the instant at which each event
  is processed.
* `HashMap<i32, TouchPoint>` is modelled as an association list
  `List (ℤ × TouchPoint)` whose insert replaces an existing key, so the
  list length is the number of distinct keys, matching `HashMap::len`.
* `HashMap<String, GestureConfig>` is likewise an association list.
* Functions that mutate `&mut self` return the new state explicitly.
-/

namespace Bodgestr

/-- Supported gesture types (src/recognizer.rs, `enum GestureType`). -/
inductive GestureType
  | SwipeLeft
  | SwipeRight
  | SwipeUp
  | SwipeDown
  | Tap
  | DoubleTap
  | LongPress
  | PinchIn
  | PinchOut
  deriving DecidableEq, Repr

/-- Canonical snake-case name of a gesture (the strum `serialize` attributes
on `GestureType`, used by `Display` and `IntoStaticStr`). -/
def gestureName : GestureType → String
  | .SwipeLeft => "swipe_left"
  | .SwipeRight => "swipe_right"
  | .SwipeUp => "swipe_up"
  | .SwipeDown => "swipe_down"
  | .Tap => "tap"
  | .DoubleTap => "double_tap"
  | .LongPress => "long_press"
  | .PinchIn => "pinch_in"
  | .PinchOut => "pinch_out"

/-- Gesture configuration entry (src/config.rs, `struct GestureConfig`). -/
structure GestureConfig where
  action : Option String
  enabled : Bool

/-- src/event.rs, `resolve_action`: look up the action string for a
recognized gesture in the device config.  The `HashMap` is modelled as an
association list; `get` is `find?` on the key. -/
def resolve_action (gesture : GestureType)
    (gestures : List (String × GestureConfig)) : Option String :=
  match gestures.find? (fun e => e.1 = gestureName gesture) with
  | none => none
  | some e => if e.2.enabled then e.2.action else none

noncomputable section

/-- Rust `f64::hypot`: `sqrt (a^2 + b^2)`. -/
def hypot (a b : ℝ) : ℝ := Real.sqrt (a ^ 2 + b ^ 2)

/-- Rust `f64::atan2` (`y.atan2 x`), on the IEEE branches. -/
def atan2 (y x : ℝ) : ℝ :=
  if 0 < x then Real.arctan (y / x)
  else if x < 0 then
    (if 0 ≤ y then Real.arctan (y / x) + Real.pi
     else Real.arctan (y / x) - Real.pi)
  else
    (if 0 < y then Real.pi / 2
     else if y < 0 then -(Real.pi / 2)
     else 0)

/-- Rust `f64::to_degrees`. -/
def toDegrees (r : ℝ) : ℝ := r * (180 / Real.pi)

/-- `Instant::duration_since` (and `elapsed`), saturating at zero. -/
def durationSince (later earlier : ℝ) : ℝ := max (later - earlier) 0

/-- One committed touch sample (src/recognizer.rs, `struct TouchPoint`). -/
structure TouchPoint where
  x : ℝ
  y : ℝ
  time : ℝ
  tracking_id : ℤ

/-- `TouchPoint::distance_to`: Euclidean distance via `hypot`. -/
def TouchPoint.distance_to (p q : TouchPoint) : ℝ :=
  hypot (p.x - q.x) (p.y - q.y)

/-- The nine per-device thresholds (src/config.rs, `ValidatedThresholds`). -/
structure ValidatedThresholds where
  swipe_time_max : ℝ
  swipe_distance_min_pct : ℝ
  angle_tolerance_deg : ℝ
  tap_time_max : ℝ
  long_press_time_min : ℝ
  double_tap_interval : ℝ
  tap_distance_max : ℝ
  double_tap_distance_max : ℝ
  pinch_threshold_pct : ℝ

/-- Recognizer session state (src/recognizer.rs, `struct GestureRecognizer`). -/
structure GestureRecognizer where
  thresholds : ValidatedThresholds
  x_range : ℝ × ℝ
  y_range : ℝ × ℝ
  touch_start : Option TouchPoint
  touch_current : Option TouchPoint
  touch_points : List TouchPoint
  active_touches : List (ℤ × TouchPoint)
  last_tap_time : Option ℝ
  last_tap_position : Option (ℝ × ℝ)
  pending_x : Option ℝ
  pending_y : Option ℝ
  pending_tracking_id : ℤ
  pending_tap : Bool

/-- `GestureRecognizer::new`: thresholds and ranges as given, every other
field at its `Default` value. -/
def mkRecognizer (th : ValidatedThresholds) (xr yr : ℝ × ℝ) :
    GestureRecognizer where
  thresholds := th
  x_range := xr
  y_range := yr
  touch_start := none
  touch_current := none
  touch_points := []
  active_touches := []
  last_tap_time := none
  last_tap_position := none
  pending_x := none
  pending_y := none
  pending_tracking_id := 0
  pending_tap := false

/-- `HashMap::insert` on the association-list model: replace any entry with
the same key, keeping keys unique. -/
def mapInsert (m : List (ℤ × TouchPoint)) (k : ℤ) (v : TouchPoint) :
    List (ℤ × TouchPoint) :=
  (k, v) :: m.filter (fun e => e.1 ≠ k)

/-- `GestureRecognizer::reset`. -/
def reset (s : GestureRecognizer) : GestureRecognizer :=
  { s with
    touch_start := none
    touch_current := none
    touch_points := []
    active_touches := []
    pending_x := none
    pending_y := none
    pending_tracking_id := 0 }

/-- `GestureRecognizer::set_pending_x`. -/
def set_pending_x (s : GestureRecognizer) (x : ℝ) : GestureRecognizer :=
  { s with pending_x := some x }

/-- `GestureRecognizer::set_pending_y`. -/
def set_pending_y (s : GestureRecognizer) (y : ℝ) : GestureRecognizer :=
  { s with pending_y := some y }

/-- `GestureRecognizer::set_tracking_id`. -/
def set_tracking_id (s : GestureRecognizer) (id : ℤ) : GestureRecognizer :=
  { s with pending_tracking_id := id }

/-- The `TouchPoint` built inside `flush_pending`: buffered X (or the
current touch's X, or 0.0), buffered Y (same fallback), the current
instant, and the pending tracking id. -/
def pendingPoint (s : GestureRecognizer) (now : ℝ) : TouchPoint where
  x := s.pending_x.getD ((s.touch_current.map TouchPoint.x).getD 0)
  y := s.pending_y.getD ((s.touch_current.map TouchPoint.y).getD 0)
  time := now
  tracking_id := s.pending_tracking_id

/-- `GestureRecognizer::flush_pending`, with `Instant::now()` passed in as
`now`. -/
def flush_pending (s : GestureRecognizer) (now : ℝ) : GestureRecognizer :=
  if s.pending_x = none ∧ s.pending_y = none then s
  else
    let point : TouchPoint := pendingPoint s now
    { s with
      active_touches := mapInsert s.active_touches s.pending_tracking_id point
      touch_points := s.touch_points ++ [point]
      touch_start := some (s.touch_start.getD point)
      touch_current := some point
      pending_x := none
      pending_y := none }

/-- `GestureRecognizer::detect_swipe`. -/
def detect_swipe (s : GestureRecognizer) (start current : TouchPoint) :
    Option GestureType :=
  let dx := current.x - start.x
  let dy := current.y - start.y
  let dt := durationSince current.time start.time
  if dt ≥ s.thresholds.swipe_time_max then none
  else
    let x_span := s.x_range.2 - s.x_range.1
    let y_span := s.y_range.2 - s.y_range.1
    if |dx| ≥ x_span * s.thresholds.swipe_distance_min_pct ∧
        toDegrees (atan2 |dy| |dx|) ≤ s.thresholds.angle_tolerance_deg then
      some (if 0 < dx then GestureType.SwipeRight else GestureType.SwipeLeft)
    else if |dy| ≥ y_span * s.thresholds.swipe_distance_min_pct ∧
        toDegrees (atan2 |dx| |dy|) ≤ s.thresholds.angle_tolerance_deg then
      some (if 0 < dy then GestureType.SwipeDown else GestureType.SwipeUp)
    else none

/-- `GestureRecognizer::detect_stationary`, with `Instant::now()` passed in
as `now`; returns the optional gesture together with the updated state. -/
def detect_stationary (s : GestureRecognizer) (start current : TouchPoint)
    (now : ℝ) : Option GestureType × GestureRecognizer :=
  let dt := durationSince current.time start.time
  let distance := start.distance_to current
  if dt ≥ s.thresholds.long_press_time_min ∧
      distance < s.thresholds.tap_distance_max then
    (some GestureType.LongPress, s)
  else if dt ≥ s.thresholds.tap_time_max ∨
      distance ≥ s.thresholds.tap_distance_max then
    (none, s)
  else
    match s.last_tap_time, s.last_tap_position with
    | some last_time, some lp =>
      if durationSince now last_time < s.thresholds.double_tap_interval ∧
          hypot (current.x - lp.1) (current.y - lp.2) <
            s.thresholds.double_tap_distance_max then
        (some GestureType.DoubleTap,
          { s with
            pending_tap := false
            last_tap_time := none
            last_tap_position := none })
      else
        (none,
          { s with
            last_tap_time := some now
            last_tap_position := some (current.x, current.y)
            pending_tap := true })
    | _, _ =>
      (none,
        { s with
          last_tap_time := some now
          last_tap_position := some (current.x, current.y)
          pending_tap := true })

/-- `GestureRecognizer::detect_pinch`, mirroring the length guard and the
two guarded searches of the Rust code. -/
def detect_pinch (s : GestureRecognizer) : Option GestureType :=
  if s.touch_points.length < 4 ∨ s.active_touches.length < 2 then none
  else
    match s.touch_points.head? with
    | none => none
    | some p1_first =>
      match (s.touch_points.drop 1).find?
          (fun p => p.tracking_id ≠ p1_first.tracking_id) with
      | none => none
      | some p2_first =>
        let first_dist := p1_first.distance_to p2_first
        match s.touch_points.getLast? with
        | none => none
        | some p1_last =>
          match ((s.touch_points.take (s.touch_points.length - 1)).reverse).find?
              (fun p => p.tracking_id ≠ p1_last.tracking_id) with
          | none => none
          | some p2_last =>
            let last_dist := p1_last.distance_to p2_last
            let threshold := first_dist * s.thresholds.pinch_threshold_pct
            if last_dist < first_dist - threshold then some GestureType.PinchIn
            else if last_dist > first_dist + threshold then
              some GestureType.PinchOut
            else none

/-- `GestureRecognizer::recognize_gesture`, with `Instant::now()` passed in
as `now`.  Pinch is attempted only with two or more active touches; a pinch
result returns immediately, otherwise swipe and then stationary detection
run. -/
def recognize_gesture (s : GestureRecognizer) (now : ℝ) :
    Option GestureType × GestureRecognizer :=
  match s.touch_start, s.touch_current with
  | some start, some current =>
    let pinchResult : Option GestureType :=
      if 2 ≤ s.active_touches.length then detect_pinch s else none
    match pinchResult with
    | some pinch => (some pinch, s)
    | none =>
      match detect_swipe s start current with
      | some swipe => (some swipe, s)
      | none => detect_stationary s start current now
  | _, _ => (none, s)

/-- `GestureRecognizer::check_pending_tap_expired`, with `Instant::now()`
passed in as `now`. -/
def check_pending_tap_expired (s : GestureRecognizer) (now : ℝ) :
    Option GestureType × GestureRecognizer :=
  if s.pending_tap then
    match s.last_tap_time with
    | none => (none, s)
    | some t =>
      if durationSince now t ≥ s.thresholds.double_tap_interval then
        (some GestureType.Tap, { s with pending_tap := false })
      else (none, s)
  else (none, s)

/-- Semantic touch event (src/event.rs, `enum TouchEvent`). -/
inductive TouchEvent
  | PositionX (v : ℝ)
  | PositionY (v : ℝ)
  | TrackingId (id : ℤ)
  | FingerUp
  | SynReport

/-- One iteration of the `process_touch_events` loop: dispatch a single
event at processing instant `now`, returning the new state and the
gestures pushed for this event (in push order). -/
def processEvent (s : GestureRecognizer) (now : ℝ) (e : TouchEvent) :
    GestureRecognizer × List GestureType :=
  match e with
  | .PositionX x => (set_pending_x s x, [])
  | .PositionY y => (set_pending_y s y, [])
  | .TrackingId id => (set_tracking_id s id, [])
  | .FingerUp =>
    let r1 := check_pending_tap_expired s now
    let r2 := recognize_gesture r1.2 now
    (reset r2.2, r1.1.toList ++ r2.1.toList)
  | .SynReport =>
    let s1 := flush_pending s now
    let r := check_pending_tap_expired s1 now
    (r.2, r.1.toList)

/-- src/event.rs, `process_touch_events`: drive the recognizer through an
ordered batch of events, accumulating the fired gestures in order.  Each
event carries the instant at which it is processed. -/
def process_touch_events (s : GestureRecognizer)
    (events : List (ℝ × TouchEvent)) : GestureRecognizer × List GestureType :=
  match events with
  | [] => (s, [])
  | (t, e) :: rest =>
    let r1 := processEvent s t e
    let r2 := process_touch_events r1.1 rest
    (r2.1, r1.2 ++ r2.2)

/-- The threshold set used by the repository tests and the spec scenarios. -/
def demoThresholds : ValidatedThresholds where
  swipe_time_max := 0.9
  swipe_distance_min_pct := 0.15
  angle_tolerance_deg := 30
  tap_time_max := 0.2
  long_press_time_min := 0.8
  double_tap_interval := 0.3
  tap_distance_max := 50
  double_tap_distance_max := 50
  pinch_threshold_pct := 0.1

/-- Event sequence of one simple stationary touch: press at `t1`, one
coordinate refresh at `t2`, finger lift processed at `f`. -/
def tapTouch (id : ℤ) (x y t1 t2 f : ℝ) : List (ℝ × TouchEvent) :=
  [(t1, .TrackingId id), (t1, .PositionX x), (t1, .PositionY y),
   (t1, .SynReport), (t2, .PositionX x), (t2, .SynReport), (f, .FingerUp)]

/-- State reached after a single deferred tap at position `(x, y)` whose
candidate was recorded at instant `f` (fresh recognizer otherwise). -/
def afterOneTap (th : ValidatedThresholds) (xr yr : ℝ × ℝ) (x y f : ℝ) :
    GestureRecognizer :=
  { mkRecognizer th xr yr with
    last_tap_time := some f
    last_tap_position := some (x, y)
    pending_tap := true }

/-- Concrete recognizer with a deferred tap recorded at instant 0, used to
exercise the tap-expiry path. -/
def c4State : GestureRecognizer :=
  afterOneTap demoThresholds (0, 1000) (0, 1000) 500 500 0

/-- Concrete recognizer holding a partially buffered coordinate (X only,
no sample committed yet). -/
def c10State : GestureRecognizer :=
  { mkRecognizer demoThresholds (0, 1000) (0, 1000) with pending_x := some 300 }

/-- Single-entry gesture map whose action text is present but empty. -/
def c7Gestures : List (String × GestureConfig) :=
  [("tap", { action := some "", enabled := true })]

/-- Fresh recognizer with the demo thresholds on a 0..1000 screen. -/
def demoRecognizer : GestureRecognizer :=
  mkRecognizer demoThresholds (0, 1000) (0, 1000)

/-- Start sample of the spec's swipe-left motion. -/
def c6Start : TouchPoint := ⟨800, 500, 0, 0⟩

/-- End sample of the spec's swipe-left motion. -/
def c6Current : TouchPoint := ⟨100, 500, 0.3, 0⟩

/-- Permissive thresholds under which a slow, long motion qualifies both as
a swipe and as a long press. -/
def c5Thresholds : ValidatedThresholds where
  swipe_time_max := 10
  swipe_distance_min_pct := 0.01
  angle_tolerance_deg := 30
  tap_time_max := 0.2
  long_press_time_min := 0.1
  double_tap_interval := 0.3
  tap_distance_max := 1000
  double_tap_distance_max := 50
  pinch_threshold_pct := 0.1

/-- Start sample of the long-and-far single-finger motion. -/
def c5Start : TouchPoint := ⟨100, 500, 0, 0⟩

/-- End sample of the long-and-far single-finger motion. -/
def c5Current : TouchPoint := ⟨600, 500, 0.5, 0⟩

/-- Single-finger state meeting the long-press conditions while also
qualifying as a swipe under `c5Thresholds`. -/
def c5State : GestureRecognizer :=
  { mkRecognizer c5Thresholds (0, 1000) (0, 1000) with
    touch_start := some c5Start
    touch_current := some c5Current
    touch_points := [c5Start, c5Current]
    active_touches := [(0, c5Current)] }

/-- Start sample of a motionless long press. -/
def c5WStart : TouchPoint := ⟨500, 500, 0, 0⟩

/-- End sample of a motionless long press, 1.5 s later. -/
def c5WCurrent : TouchPoint := ⟨500, 500, 1.5, 0⟩

/-- Single-finger state of a motionless 1.5 s press under the demo
thresholds. -/
def c5WState : GestureRecognizer :=
  { demoRecognizer with
    touch_start := some c5WStart
    touch_current := some c5WCurrent
    touch_points := [c5WStart, c5WCurrent]
    active_touches := [(0, c5WCurrent)] }

/-- Second finger's sample in the two-finger, two-sample state. -/
def c2Other : TouchPoint := ⟨900, 500, 0.3, 1⟩

/-- Two active tracking ids but only two buffered samples, with a
swipe-qualifying primary vector: pinch detection declines here. -/
def c2State : GestureRecognizer :=
  { demoRecognizer with
    touch_start := some c6Start
    touch_current := some c6Current
    touch_points := [c6Start, c6Current]
    active_touches := [(0, c6Current), (1, c2Other)] }

/-- First committed sample of the pinch-in history (finger 0). -/
def c8P1 : TouchPoint := ⟨300, 500, 0, 0⟩

/-- Second committed sample of the pinch-in history (finger 1). -/
def c8P2 : TouchPoint := ⟨700, 500, 0, 1⟩

/-- Third committed sample of the pinch-in history (finger 0). -/
def c8P3 : TouchPoint := ⟨450, 500, 0.3, 0⟩

/-- Fourth committed sample of the pinch-in history (finger 1). -/
def c8P4 : TouchPoint := ⟨550, 500, 0.3, 1⟩

/-- Two-finger state whose separation shrank from 400 to 100. -/
def c8State : GestureRecognizer :=
  { demoRecognizer with
    touch_start := some c8P1
    touch_current := some c8P3
    touch_points := [c8P1, c8P2, c8P3, c8P4]
    active_touches := [(0, c8P3), (1, c8P4)] }

/-- Two-finger state whose separation grew from 100 to 400. -/
def c2WState : GestureRecognizer :=
  { demoRecognizer with
    touch_start := some c8P3
    touch_current := some c8P1
    touch_points := [c8P3, c8P4, c8P1, c8P2]
    active_touches := [(0, c8P1), (1, c8P2)] }

/-- The six events of a stationary touch before its finger lift: press at
`t1`, coordinate refresh at `t2` (see `tapTouch`). -/
def sixEvents (x y t1 t2 : ℝ) : List (ℝ × TouchEvent) :=
  [(t1, .TrackingId 0), (t1, .PositionX x), (t1, .PositionY y),
   (t1, .SynReport), (t2, .PositionX x), (t2, .SynReport)]

/-- Session state after committing the two samples of `sixEvents`:
tracking id 0 at `(x, y)` at instants `t1` and `t2`, with the double-tap
bookkeeping fields `bt`, `bp`, `btap` carried through. -/
def twoCommits (th : ValidatedThresholds) (xr yr : ℝ × ℝ) (bt : Option ℝ)
    (bp : Option (ℝ × ℝ)) (btap : Bool) (x y t1 t2 : ℝ) : GestureRecognizer :=
  ⟨th, xr, yr, some ⟨x, y, t1, 0⟩, some ⟨x, y, t2, 0⟩,
    [⟨x, y, t1, 0⟩, ⟨x, y, t2, 0⟩], [(0, ⟨x, y, t2, 0⟩)],
    bt, bp, none, none, 0, btap⟩

/-- Demo thresholds with `long_press_time_min` lowered below
`tap_time_max`, so a sub-`tap_time_max` touch can hold long enough to be a
long press. -/
def c3BadThresholds : ValidatedThresholds :=
  { demoThresholds with long_press_time_min := 0.1 }

end

-- ---------------------------------------------------------------------
-- Helper lemmas
-- ---------------------------------------------------------------------

theorem durationSince_of_le {a b : ℝ} (h : b ≤ a) : durationSince a b = a - b :=
  max_eq_left (sub_nonneg.mpr h)

theorem hypot_zero_right (a : ℝ) : hypot a 0 = |a| := by
  simp [hypot, Real.sqrt_sq_eq_abs]

theorem hypot_nonneg (a b : ℝ) : 0 ≤ hypot a b := Real.sqrt_nonneg _

theorem toDegrees_atan2_zero {x : ℝ} (hx : 0 < x) :
    toDegrees (atan2 0 x) = 0 := by
  simp [atan2, hx, toDegrees, Real.arctan_zero]

theorem TouchPoint.distance_to_nonneg (p q : TouchPoint) :
    0 ≤ p.distance_to q :=
  Real.sqrt_nonneg _

theorem detect_swipe_swipes (s : GestureRecognizer)
    (start current : TouchPoint) (g : GestureType)
    (h : detect_swipe s start current = some g) :
    g = GestureType.SwipeLeft ∨ g = GestureType.SwipeRight ∨
    g = GestureType.SwipeUp ∨ g = GestureType.SwipeDown := by
  simp only [detect_swipe] at h
  split_ifs at h <;> simp_all

theorem detect_pinch_pinches (s : GestureRecognizer) (g : GestureType)
    (h : detect_pinch s = some g) :
    g = GestureType.PinchIn ∨ g = GestureType.PinchOut := by
  unfold detect_pinch at h
  repeat' split at h
  all_goals try dsimp only at h
  all_goals try split_ifs at h
  all_goals simp_all

-- Step lemmas used to evaluate event traces.

theorem expiry_of_not_pending (s : GestureRecognizer) (now : ℝ)
    (h : s.pending_tap = false) :
    check_pending_tap_expired s now = (none, s) := by
  simp [check_pending_tap_expired, h]

theorem expiry_of_not_expired (s : GestureRecognizer) (now t : ℝ)
    (ht : s.last_tap_time = some t)
    (h : durationSince now t < s.thresholds.double_tap_interval) :
    check_pending_tap_expired s now = (none, s) := by
  simp [check_pending_tap_expired, ht, not_le.mpr h]

theorem expiry_fires (s : GestureRecognizer) (now t : ℝ)
    (hp : s.pending_tap = true) (ht : s.last_tap_time = some t)
    (h : durationSince now t ≥ s.thresholds.double_tap_interval) :
    check_pending_tap_expired s now =
      (some GestureType.Tap, { s with pending_tap := false }) := by
  simp [check_pending_tap_expired, hp, ht, if_pos h]

theorem stationary_long_press (s : GestureRecognizer)
    (start current : TouchPoint) (now : ℝ)
    (h1 : durationSince current.time start.time ≥
        s.thresholds.long_press_time_min ∧
      start.distance_to current < s.thresholds.tap_distance_max) :
    detect_stationary s start current now = (some GestureType.LongPress, s) := by
  simp only [detect_stationary, if_pos h1]

theorem stationary_new_candidate (s : GestureRecognizer)
    (start current : TouchPoint) (now : ℝ)
    (h1 : ¬(durationSince current.time start.time ≥
        s.thresholds.long_press_time_min ∧
      start.distance_to current < s.thresholds.tap_distance_max))
    (h2 : ¬(durationSince current.time start.time ≥
        s.thresholds.tap_time_max ∨
      start.distance_to current ≥ s.thresholds.tap_distance_max))
    (hlt : s.last_tap_time = none) :
    detect_stationary s start current now =
      (none, { s with
        last_tap_time := some now
        last_tap_position := some (current.x, current.y)
        pending_tap := true }) := by
  simp only [detect_stationary, if_neg h1, if_neg h2, hlt]

theorem stationary_double_tap (s : GestureRecognizer)
    (start current : TouchPoint) (now lt : ℝ) (lp : ℝ × ℝ)
    (h1 : ¬(durationSince current.time start.time ≥
        s.thresholds.long_press_time_min ∧
      start.distance_to current < s.thresholds.tap_distance_max))
    (h2 : ¬(durationSince current.time start.time ≥
        s.thresholds.tap_time_max ∨
      start.distance_to current ≥ s.thresholds.tap_distance_max))
    (hlt : s.last_tap_time = some lt) (hlp : s.last_tap_position = some lp)
    (hcond : durationSince now lt < s.thresholds.double_tap_interval ∧
      hypot (current.x - lp.1) (current.y - lp.2) <
        s.thresholds.double_tap_distance_max) :
    detect_stationary s start current now =
      (some GestureType.DoubleTap, { s with
        pending_tap := false
        last_tap_time := none
        last_tap_position := none }) := by
  simp only [detect_stationary, if_neg h1, if_neg h2, hlt, hlp, if_pos hcond]

theorem detect_swipe_of_still (s : GestureRecognizer)
    (start current : TouchPoint)
    (hx : current.x = start.x) (hy : current.y = start.y)
    (hxs : 0 < (s.x_range.2 - s.x_range.1) *
      s.thresholds.swipe_distance_min_pct)
    (hys : 0 < (s.y_range.2 - s.y_range.1) *
      s.thresholds.swipe_distance_min_pct) :
    detect_swipe s start current = none := by
  simp only [detect_swipe, hx, hy, sub_self, abs_zero]
  split_ifs with h1 h2 h3
  · rfl
  · exact absurd h2.1 (not_le.mpr hxs)
  · exact absurd h3.1 (not_le.mpr hys)
  · rfl

theorem recognize_via_stationary (s : GestureRecognizer) (now : ℝ)
    (start current : TouchPoint)
    (hs : s.touch_start = some start) (hc : s.touch_current = some current)
    (hlen : ¬2 ≤ s.active_touches.length)
    (hsw : detect_swipe s start current = none) :
    recognize_gesture s now = detect_stationary s start current now := by
  simp only [recognize_gesture, hs, hc, if_neg hlen, hsw]

theorem processEvent_fingerUp (s : GestureRecognizer) (now : ℝ)
    (g1 : Option GestureType) (s1 : GestureRecognizer)
    (g2 : Option GestureType) (s2 : GestureRecognizer)
    (h1 : check_pending_tap_expired s now = (g1, s1))
    (h2 : recognize_gesture s1 now = (g2, s2)) :
    processEvent s now .FingerUp = (reset s2, g1.toList ++ g2.toList) := by
  simp only [processEvent, h1, h2]

theorem process_touch_events_append (s : GestureRecognizer)
    (l1 l2 : List (ℝ × TouchEvent)) :
    process_touch_events s (l1 ++ l2) =
      ((process_touch_events (process_touch_events s l1).1 l2).1,
       (process_touch_events s l1).2 ++
         (process_touch_events (process_touch_events s l1).1 l2).2) := by
  induction l1 generalizing s with
  | nil => simp [process_touch_events]
  | cons te rest ih =>
    obtain ⟨t, e⟩ := te
    simp only [List.cons_append, process_touch_events, List.append_eq]
    rw [ih]
    simp [List.append_assoc]

-- Run lemmas: evaluating a stationary touch through the event processor.

theorem runSix_quiet_flag (th : ValidatedThresholds) (xr yr : ℝ × ℝ)
    (bt : Option ℝ) (bp : Option (ℝ × ℝ)) (x y t1 t2 : ℝ) :
    process_touch_events
      ⟨th, xr, yr, none, none, [], [], bt, bp, none, none, 0, false⟩
      (sixEvents x y t1 t2) =
      (twoCommits th xr yr bt bp false x y t1 t2, []) := rfl

theorem runSix_quiet_time (th : ValidatedThresholds) (xr yr : ℝ × ℝ)
    (bp : Option (ℝ × ℝ)) (tb x y t1 t2 : ℝ)
    (hbt1 : tb ≤ t1) (h12 : t1 ≤ t2)
    (h1 : t1 - tb < th.double_tap_interval)
    (h2 : t2 - tb < th.double_tap_interval) :
    process_touch_events
      ⟨th, xr, yr, none, none, [], [], some tb, bp, none, none, 0, true⟩
      (sixEvents x y t1 t2) =
      (twoCommits th xr yr (some tb) bp true x y t1 t2, []) := by
  have hq1 : check_pending_tap_expired
      ⟨th, xr, yr, some ⟨x, y, t1, 0⟩, some ⟨x, y, t1, 0⟩, [⟨x, y, t1, 0⟩],
        [(0, ⟨x, y, t1, 0⟩)], some tb, bp, none, none, 0, true⟩ t1 =
      (none, ⟨th, xr, yr, some ⟨x, y, t1, 0⟩, some ⟨x, y, t1, 0⟩,
        [⟨x, y, t1, 0⟩], [(0, ⟨x, y, t1, 0⟩)], some tb, bp, none, none, 0,
        true⟩) :=
    expiry_of_not_expired _ _ tb rfl
      (by rw [durationSince_of_le hbt1]; exact h1)
  have hq2 : check_pending_tap_expired
      ⟨th, xr, yr, some ⟨x, y, t1, 0⟩, some ⟨x, y, t2, 0⟩,
        [⟨x, y, t1, 0⟩, ⟨x, y, t2, 0⟩], [(0, ⟨x, y, t2, 0⟩)], some tb, bp,
        none, none, 0, true⟩ t2 =
      (none, ⟨th, xr, yr, some ⟨x, y, t1, 0⟩, some ⟨x, y, t2, 0⟩,
        [⟨x, y, t1, 0⟩, ⟨x, y, t2, 0⟩], [(0, ⟨x, y, t2, 0⟩)], some tb, bp,
        none, none, 0, true⟩) :=
    expiry_of_not_expired _ _ tb rfl
      (by rw [durationSince_of_le (hbt1.trans h12)]; exact h2)
  simp [sixEvents, process_touch_events, processEvent, set_tracking_id,
    set_pending_x, set_pending_y, flush_pending, pendingPoint, mapInsert,
    hq1, hq2, twoCommits]

theorem runSix_expiring (th : ValidatedThresholds) (xr yr : ℝ × ℝ)
    (bp : Option (ℝ × ℝ)) (tb x y t1 t2 : ℝ)
    (hbt1 : tb ≤ t1) (hexp : t1 - tb ≥ th.double_tap_interval) :
    process_touch_events
      ⟨th, xr, yr, none, none, [], [], some tb, bp, none, none, 0, true⟩
      (sixEvents x y t1 t2) =
      (twoCommits th xr yr (some tb) bp false x y t1 t2,
        [GestureType.Tap]) := by
  have hq1 : check_pending_tap_expired
      ⟨th, xr, yr, some ⟨x, y, t1, 0⟩, some ⟨x, y, t1, 0⟩, [⟨x, y, t1, 0⟩],
        [(0, ⟨x, y, t1, 0⟩)], some tb, bp, none, none, 0, true⟩ t1 =
      (some GestureType.Tap, ⟨th, xr, yr, some ⟨x, y, t1, 0⟩,
        some ⟨x, y, t1, 0⟩, [⟨x, y, t1, 0⟩], [(0, ⟨x, y, t1, 0⟩)], some tb,
        bp, none, none, 0, false⟩) :=
    expiry_fires _ _ tb rfl rfl
      (by rw [durationSince_of_le hbt1]; exact hexp)
  have hq2 : check_pending_tap_expired
      ⟨th, xr, yr, some ⟨x, y, t1, 0⟩, some ⟨x, y, t2, 0⟩,
        [⟨x, y, t1, 0⟩, ⟨x, y, t2, 0⟩], [(0, ⟨x, y, t2, 0⟩)], some tb, bp,
        none, none, 0, false⟩ t2 =
      (none, ⟨th, xr, yr, some ⟨x, y, t1, 0⟩, some ⟨x, y, t2, 0⟩,
        [⟨x, y, t1, 0⟩, ⟨x, y, t2, 0⟩], [(0, ⟨x, y, t2, 0⟩)], some tb, bp,
        none, none, 0, false⟩) :=
    expiry_of_not_pending _ _ rfl
  simp [sixEvents, process_touch_events, processEvent, set_tracking_id,
    set_pending_x, set_pending_y, flush_pending, pendingPoint, mapInsert,
    hq1, hq2, twoCommits]

theorem fingerUp_records_tap (th : ValidatedThresholds) (xr yr : ℝ × ℝ)
    (bp : Option (ℝ × ℝ)) (x y t1 t2 f : ℝ)
    (hxs : 0 < (xr.2 - xr.1) * th.swipe_distance_min_pct)
    (hys : 0 < (yr.2 - yr.1) * th.swipe_distance_min_pct)
    (h12 : t1 ≤ t2)
    (hdt : t2 - t1 < th.tap_time_max)
    (hdlp : t2 - t1 < th.long_press_time_min)
    (htdm : 0 < th.tap_distance_max) :
    process_touch_events (twoCommits th xr yr none bp false x y t1 t2)
      [(f, .FingerUp)] = (afterOneTap th xr yr x y f, []) := by
  have hdist : (⟨x, y, t1, 0⟩ : TouchPoint).distance_to ⟨x, y, t2, 0⟩ = 0 := by
    simp [TouchPoint.distance_to, hypot_zero_right]
  have hdd : durationSince t2 t1 = t2 - t1 := durationSince_of_le h12
  have h1 : ¬(durationSince t2 t1 ≥ th.long_press_time_min ∧
      (⟨x, y, t1, 0⟩ : TouchPoint).distance_to ⟨x, y, t2, 0⟩ <
        th.tap_distance_max) := by
    rw [hdd]
    intro hh
    exact absurd hh.1 (not_le.mpr hdlp)
  have h2 : ¬(durationSince t2 t1 ≥ th.tap_time_max ∨
      (⟨x, y, t1, 0⟩ : TouchPoint).distance_to ⟨x, y, t2, 0⟩ ≥
        th.tap_distance_max) := by
    rw [hdd, hdist]
    push_neg
    exact ⟨hdt, htdm⟩
  have hsw : detect_swipe (twoCommits th xr yr none bp false x y t1 t2)
      ⟨x, y, t1, 0⟩ ⟨x, y, t2, 0⟩ = none :=
    detect_swipe_of_still _ _ _ rfl rfl hxs hys
  have hst := stationary_new_candidate
    (twoCommits th xr yr none bp false x y t1 t2)
    ⟨x, y, t1, 0⟩ ⟨x, y, t2, 0⟩ f h1 h2 rfl
  have hrec : recognize_gesture
      (twoCommits th xr yr none bp false x y t1 t2) f =
      (none, { twoCommits th xr yr none bp false x y t1 t2 with
        last_tap_time := some f
        last_tap_position := some (x, y)
        pending_tap := true }) := by
    rw [recognize_via_stationary _ _ _ _ rfl rfl (by simp [twoCommits]) hsw]
    exact hst
  have hev : processEvent (twoCommits th xr yr none bp false x y t1 t2) f
      .FingerUp = (afterOneTap th xr yr x y f, []) := by
    rw [processEvent_fingerUp _ _ _ _ _ _ (expiry_of_not_pending _ _ rfl)
      hrec]
    rfl
  simp [process_touch_events, hev]

theorem fingerUp_double (th : ValidatedThresholds) (xr yr : ℝ × ℝ)
    (tb x y t1 t2 f : ℝ)
    (hxs : 0 < (xr.2 - xr.1) * th.swipe_distance_min_pct)
    (hys : 0 < (yr.2 - yr.1) * th.swipe_distance_min_pct)
    (h12 : t1 ≤ t2)
    (hdt : t2 - t1 < th.tap_time_max)
    (hdlp : t2 - t1 < th.long_press_time_min)
    (htdm : 0 < th.tap_distance_max)
    (htbf : tb ≤ f) (hgap : f - tb < th.double_tap_interval)
    (hdtdm : 0 < th.double_tap_distance_max) :
    process_touch_events
      (twoCommits th xr yr (some tb) (some (x, y)) true x y t1 t2)
      [(f, .FingerUp)] = (mkRecognizer th xr yr, [GestureType.DoubleTap]) := by
  have hdist : (⟨x, y, t1, 0⟩ : TouchPoint).distance_to ⟨x, y, t2, 0⟩ = 0 := by
    simp [TouchPoint.distance_to, hypot_zero_right]
  have hdd : durationSince t2 t1 = t2 - t1 := durationSince_of_le h12
  have h1 : ¬(durationSince t2 t1 ≥ th.long_press_time_min ∧
      (⟨x, y, t1, 0⟩ : TouchPoint).distance_to ⟨x, y, t2, 0⟩ <
        th.tap_distance_max) := by
    rw [hdd]
    intro hh
    exact absurd hh.1 (not_le.mpr hdlp)
  have h2 : ¬(durationSince t2 t1 ≥ th.tap_time_max ∨
      (⟨x, y, t1, 0⟩ : TouchPoint).distance_to ⟨x, y, t2, 0⟩ ≥
        th.tap_distance_max) := by
    rw [hdd, hdist]
    push_neg
    exact ⟨hdt, htdm⟩
  have hsw : detect_swipe
      (twoCommits th xr yr (some tb) (some (x, y)) true x y t1 t2)
      ⟨x, y, t1, 0⟩ ⟨x, y, t2, 0⟩ = none :=
    detect_swipe_of_still _ _ _ rfl rfl hxs hys
  have hsep : hypot (x - x) (y - y) = 0 := by
    simp [hypot_zero_right]
  have hnq : durationSince f tb < th.double_tap_interval := by
    rw [durationSince_of_le htbf]
    exact hgap
  have hst := stationary_double_tap
    (twoCommits th xr yr (some tb) (some (x, y)) true x y t1 t2)
    ⟨x, y, t1, 0⟩ ⟨x, y, t2, 0⟩ f tb (x, y) h1 h2 rfl rfl
    ⟨hnq, by rw [hsep]; exact hdtdm⟩
  have hrec : recognize_gesture
      (twoCommits th xr yr (some tb) (some (x, y)) true x y t1 t2) f =
      (some GestureType.DoubleTap,
        { twoCommits th xr yr (some tb) (some (x, y)) true x y t1 t2 with
          pending_tap := false
          last_tap_time := none
          last_tap_position := none }) := by
    rw [recognize_via_stationary _ _ _ _ rfl rfl (by simp [twoCommits]) hsw]
    exact hst
  have hexp : check_pending_tap_expired
      (twoCommits th xr yr (some tb) (some (x, y)) true x y t1 t2) f =
      (none, twoCommits th xr yr (some tb) (some (x, y)) true x y t1 t2) :=
    expiry_of_not_expired _ _ tb rfl hnq
  have hev : processEvent
      (twoCommits th xr yr (some tb) (some (x, y)) true x y t1 t2) f
      .FingerUp = (mkRecognizer th xr yr, [GestureType.DoubleTap]) := by
    rw [processEvent_fingerUp _ _ _ _ _ _ hexp hrec]
    rfl
  simp [process_touch_events, hev]

theorem fingerUp_long_press (th : ValidatedThresholds) (xr yr : ℝ × ℝ)
    (bt : Option ℝ) (bp : Option (ℝ × ℝ)) (x y t1 t2 f : ℝ)
    (hxs : 0 < (xr.2 - xr.1) * th.swipe_distance_min_pct)
    (hys : 0 < (yr.2 - yr.1) * th.swipe_distance_min_pct)
    (h12 : t1 ≤ t2)
    (hdlp : t2 - t1 ≥ th.long_press_time_min)
    (htdm : 0 < th.tap_distance_max) :
    process_touch_events (twoCommits th xr yr bt bp false x y t1 t2)
      [(f, .FingerUp)] =
      (⟨th, xr, yr, none, none, [], [], bt, bp, none, none, 0, false⟩,
        [GestureType.LongPress]) := by
  have hdist : (⟨x, y, t1, 0⟩ : TouchPoint).distance_to ⟨x, y, t2, 0⟩ = 0 := by
    simp [TouchPoint.distance_to, hypot_zero_right]
  have hdd : durationSince t2 t1 = t2 - t1 := durationSince_of_le h12
  have hsw : detect_swipe (twoCommits th xr yr bt bp false x y t1 t2)
      ⟨x, y, t1, 0⟩ ⟨x, y, t2, 0⟩ = none :=
    detect_swipe_of_still _ _ _ rfl rfl hxs hys
  have hst := stationary_long_press
    (twoCommits th xr yr bt bp false x y t1 t2)
    ⟨x, y, t1, 0⟩ ⟨x, y, t2, 0⟩ f
    ⟨by rw [hdd]; exact hdlp, by rw [hdist]; exact htdm⟩
  have hrec : recognize_gesture (twoCommits th xr yr bt bp false x y t1 t2)
      f = (some GestureType.LongPress,
        twoCommits th xr yr bt bp false x y t1 t2) := by
    rw [recognize_via_stationary _ _ _ _ rfl rfl (by simp [twoCommits]) hsw]
    exact hst
  have hev : processEvent (twoCommits th xr yr bt bp false x y t1 t2) f
      .FingerUp =
      (⟨th, xr, yr, none, none, [], [], bt, bp, none, none, 0, false⟩,
        [GestureType.LongPress]) := by
    rw [processEvent_fingerUp _ _ _ _ _ _ (expiry_of_not_pending _ _ rfl)
      hrec]
    rfl
  simp [process_touch_events, hev]

theorem tapTouch_split (id : ℤ) (x y t1 t2 f : ℝ) :
    tapTouch id x y t1 t2 f =
      [(t1, .TrackingId id), (t1, .PositionX x), (t1, .PositionY y),
       (t1, .SynReport), (t2, .PositionX x), (t2, .SynReport)] ++
        [(f, .FingerUp)] := rfl

theorem run_tap_fresh (th : ValidatedThresholds) (xr yr : ℝ × ℝ)
    (x y t1 t2 f : ℝ)
    (hxs : 0 < (xr.2 - xr.1) * th.swipe_distance_min_pct)
    (hys : 0 < (yr.2 - yr.1) * th.swipe_distance_min_pct)
    (h12 : t1 ≤ t2)
    (hdt : t2 - t1 < th.tap_time_max)
    (hdlp : t2 - t1 < th.long_press_time_min)
    (htdm : 0 < th.tap_distance_max) :
    process_touch_events (mkRecognizer th xr yr) (tapTouch 0 x y t1 t2 f) =
      (afterOneTap th xr yr x y f, []) := by
  rw [tapTouch_split, process_touch_events_append,
    show (mkRecognizer th xr yr : GestureRecognizer) =
      ⟨th, xr, yr, none, none, [], [], none, none, none, none, 0, false⟩
      from rfl,
    show ([(t1, .TrackingId 0), (t1, .PositionX x), (t1, .PositionY y),
      (t1, .SynReport), (t2, .PositionX x), (t2, .SynReport)] :
        List (ℝ × TouchEvent)) = sixEvents x y t1 t2 from rfl,
    runSix_quiet_flag th xr yr none none x y t1 t2]
  rw [fingerUp_records_tap th xr yr none x y t1 t2 f hxs hys h12 hdt hdlp
    htdm]
  rfl

theorem run_tap_double (th : ValidatedThresholds) (xr yr : ℝ × ℝ)
    (x y tb t1 t2 f : ℝ)
    (hxs : 0 < (xr.2 - xr.1) * th.swipe_distance_min_pct)
    (hys : 0 < (yr.2 - yr.1) * th.swipe_distance_min_pct)
    (hbt1 : tb ≤ t1) (h12 : t1 ≤ t2) (h2f : t2 ≤ f)
    (hdt : t2 - t1 < th.tap_time_max)
    (hdlp : t2 - t1 < th.long_press_time_min)
    (htdm : 0 < th.tap_distance_max)
    (hgap : f - tb < th.double_tap_interval)
    (hdtdm : 0 < th.double_tap_distance_max) :
    process_touch_events (afterOneTap th xr yr x y tb)
      (tapTouch 0 x y t1 t2 f) =
      (mkRecognizer th xr yr, [GestureType.DoubleTap]) := by
  rw [tapTouch_split, process_touch_events_append,
    show (afterOneTap th xr yr x y tb : GestureRecognizer) =
      ⟨th, xr, yr, none, none, [], [], some tb, some (x, y), none, none, 0,
        true⟩ from rfl,
    show ([(t1, .TrackingId 0), (t1, .PositionX x), (t1, .PositionY y),
      (t1, .SynReport), (t2, .PositionX x), (t2, .SynReport)] :
        List (ℝ × TouchEvent)) = sixEvents x y t1 t2 from rfl,
    runSix_quiet_time th xr yr (some (x, y)) tb x y t1 t2 hbt1 h12
      (by linarith) (by linarith)]
  rw [fingerUp_double th xr yr tb x y t1 t2 f hxs hys h12 hdt hdlp htdm
    (by linarith) hgap hdtdm]
  rfl

theorem run_tap_long_press_fresh (th : ValidatedThresholds) (xr yr : ℝ × ℝ)
    (x y t1 t2 f : ℝ)
    (hxs : 0 < (xr.2 - xr.1) * th.swipe_distance_min_pct)
    (hys : 0 < (yr.2 - yr.1) * th.swipe_distance_min_pct)
    (h12 : t1 ≤ t2)
    (hdlp : t2 - t1 ≥ th.long_press_time_min)
    (htdm : 0 < th.tap_distance_max) :
    process_touch_events (mkRecognizer th xr yr) (tapTouch 0 x y t1 t2 f) =
      (mkRecognizer th xr yr, [GestureType.LongPress]) := by
  rw [tapTouch_split, process_touch_events_append,
    show (mkRecognizer th xr yr : GestureRecognizer) =
      ⟨th, xr, yr, none, none, [], [], none, none, none, none, 0, false⟩
      from rfl,
    show ([(t1, .TrackingId 0), (t1, .PositionX x), (t1, .PositionY y),
      (t1, .SynReport), (t2, .PositionX x), (t2, .SynReport)] :
        List (ℝ × TouchEvent)) = sixEvents x y t1 t2 from rfl,
    runSix_quiet_flag th xr yr none none x y t1 t2]
  rw [fingerUp_long_press th xr yr none none x y t1 t2 f hxs hys h12 hdlp
    htdm]
  rfl

theorem run_tap_long_press_after_tap (th : ValidatedThresholds)
    (xr yr : ℝ × ℝ) (px py x y tb t1 t2 f : ℝ)
    (hxs : 0 < (xr.2 - xr.1) * th.swipe_distance_min_pct)
    (hys : 0 < (yr.2 - yr.1) * th.swipe_distance_min_pct)
    (hbt1 : tb ≤ t1) (hexp : t1 - tb ≥ th.double_tap_interval)
    (h12 : t1 ≤ t2)
    (hdlp : t2 - t1 ≥ th.long_press_time_min)
    (htdm : 0 < th.tap_distance_max) :
    process_touch_events (afterOneTap th xr yr px py tb)
      (tapTouch 0 x y t1 t2 f) =
      (⟨th, xr, yr, none, none, [], [], some tb, some (px, py), none, none,
        0, false⟩, [GestureType.Tap, GestureType.LongPress]) := by
  rw [tapTouch_split, process_touch_events_append,
    show (afterOneTap th xr yr px py tb : GestureRecognizer) =
      ⟨th, xr, yr, none, none, [], [], some tb, some (px, py), none, none,
        0, true⟩ from rfl,
    show ([(t1, .TrackingId 0), (t1, .PositionX x), (t1, .PositionY y),
      (t1, .SynReport), (t2, .PositionX x), (t2, .SynReport)] :
        List (ℝ × TouchEvent)) = sixEvents x y t1 t2 from rfl,
    runSix_expiring th xr yr (some (px, py)) tb x y t1 t2 hbt1 hexp]
  rw [fingerUp_long_press th xr yr (some tb) (some (px, py)) x y t1 t2 f
    hxs hys h12 hdlp htdm]
  rfl

-- ---------------------------------------------------------------------
-- C9
-- ---------------------------------------------------------------------

/-- C9: `reset` clears `touch_start`, `touch_current`, `touch_points`,
`active_touches` and the pending coordinate buffer (both axes and the
pending tracking id), and leaves everything else unchanged: the double-tap
bookkeeping, the thresholds and the calibration ranges keep their values. -/
theorem C9_reset_clears_session_only (s : GestureRecognizer) :
    (reset s).touch_start = none ∧
    (reset s).touch_current = none ∧
    (reset s).touch_points = [] ∧
    (reset s).active_touches = [] ∧
    (reset s).pending_x = none ∧
    (reset s).pending_y = none ∧
    (reset s).pending_tracking_id = 0 ∧
    (reset s).last_tap_time = s.last_tap_time ∧
    (reset s).last_tap_position = s.last_tap_position ∧
    (reset s).pending_tap = s.pending_tap ∧
    (reset s).thresholds = s.thresholds ∧
    (reset s).x_range = s.x_range ∧
    (reset s).y_range = s.y_range :=
  ⟨rfl, rfl, rfl, rfl, rfl, rfl, rfl, rfl, rfl, rfl, rfl, rfl, rfl⟩

-- ---------------------------------------------------------------------
-- C10
-- ---------------------------------------------------------------------

/-- C10: when no sample has been committed yet (`touch_current` absent) and
exactly one axis is buffered, `flush_pending` still commits a `TouchPoint`,
defaulting the missing coordinate to `0.0`. -/
theorem C10_flush_defaults_missing_axis (s : GestureRecognizer) (now : ℝ)
    (hc : s.touch_current = none) :
    (∀ x, s.pending_x = some x → s.pending_y = none →
      (flush_pending s now).touch_current =
        some ⟨x, 0, now, s.pending_tracking_id⟩ ∧
      (flush_pending s now).touch_points =
        s.touch_points ++ [⟨x, 0, now, s.pending_tracking_id⟩]) ∧
    (∀ y, s.pending_x = none → s.pending_y = some y →
      (flush_pending s now).touch_current =
        some ⟨0, y, now, s.pending_tracking_id⟩ ∧
      (flush_pending s now).touch_points =
        s.touch_points ++ [⟨0, y, now, s.pending_tracking_id⟩]) := by
  constructor
  · intro x hx hy
    constructor <;> simp [flush_pending, pendingPoint, hx, hy, hc]
  · intro y hx hy
    constructor <;> simp [flush_pending, pendingPoint, hx, hy, hc]

/-- C10 witness: flushing a lone buffered X of 300 from a fresh recognizer
commits the sample `(300, 0)`. -/
theorem C10_flush_defaults_missing_axis_witness :
    (flush_pending c10State 1).touch_current = some ⟨300, 0, 1, 0⟩ ∧
    (flush_pending c10State 1).touch_points = [⟨300, 0, 1, 0⟩] := by
  have h := (C10_flush_defaults_missing_axis c10State 1 rfl).1 300 rfl rfl
  simpa [c10State, mkRecognizer] using h

-- ---------------------------------------------------------------------
-- C7
-- ---------------------------------------------------------------------

/-- C7 counterexample: an enabled entry whose action text is present but
empty.  The claim demands that `resolve_action` return nothing for an
empty-action entry; the code returns the empty string. -/
theorem C7_counterexample :
    resolve_action GestureType.Tap c7Gestures = some "" ∧ "".length = 0 :=
  ⟨rfl, rfl⟩

/-- C7 (amended): `resolve_action` returns the configured action text
exactly when an entry exists under the gesture's canonical name, is
enabled, and has an action string present (the text may be empty); for
disabled, unconfigured, or action-less entries it returns nothing. -/
theorem C7_resolve_action_characterization (g : GestureType)
    (m : List (String × GestureConfig)) (a : String) :
    resolve_action g m = some a ↔
      ∃ e, m.find? (fun p => p.1 = gestureName g) = some e ∧
        e.2.enabled = true ∧ e.2.action = some a := by
  unfold resolve_action
  cases hfind : m.find? (fun p => p.1 = gestureName g) with
  | none => simp
  | some e =>
    by_cases he : e.2.enabled <;> simp [he]

-- ---------------------------------------------------------------------
-- C4
-- ---------------------------------------------------------------------

/-- C4 counterexample: after an expired pending tap is consumed, the code
clears only the pending-tap flag; `last_tap_time` and `last_tap_position`
are left in place, contradicting the claim that all three are cleared. -/
theorem C4_counterexample :
    (check_pending_tap_expired c4State 1).1 = some GestureType.Tap ∧
    (check_pending_tap_expired c4State 1).2.last_tap_time = some 0 ∧
    (check_pending_tap_expired c4State 1).2.last_tap_position =
      some (500, 500) := by
  have hd : durationSince (1 : ℝ) 0 = 1 := by
    rw [durationSince_of_le (by norm_num : (0 : ℝ) ≤ 1)]; norm_num
  refine ⟨?_, ?_, ?_⟩ <;>
    norm_num [check_pending_tap_expired, c4State, afterOneTap, mkRecognizer,
      demoThresholds, hd]

/-- C4 (amended): with a pending tap recorded at least
`double_tap_interval` in the past, `check_pending_tap_expired` returns Tap
exactly once and clears the pending-tap flag only — `last_tap_time` and
`last_tap_position` are left unchanged — and every subsequent call returns
nothing until a new pending tap is recorded. -/
theorem C4_expiry_consumes_flag (s : GestureRecognizer) (now t : ℝ)
    (hp : s.pending_tap = true) (ht : s.last_tap_time = some t)
    (he : durationSince now t ≥ s.thresholds.double_tap_interval) :
    (check_pending_tap_expired s now).1 = some GestureType.Tap ∧
    (check_pending_tap_expired s now).2.pending_tap = false ∧
    (check_pending_tap_expired s now).2.last_tap_time = s.last_tap_time ∧
    (check_pending_tap_expired s now).2.last_tap_position =
      s.last_tap_position ∧
    ∀ now2, check_pending_tap_expired (check_pending_tap_expired s now).2
      now2 = (none, (check_pending_tap_expired s now).2) := by
  have hstep : check_pending_tap_expired s now =
      (some GestureType.Tap, { s with pending_tap := false }) := by
    simp [check_pending_tap_expired, hp, ht, if_pos he]
  rw [hstep]
  refine ⟨rfl, rfl, rfl, rfl, ?_⟩
  intro now2
  simp [check_pending_tap_expired]

/-- C4 witness: the amended theorem applied to the concrete expired-tap
state at instant 1. -/
theorem C4_expiry_consumes_flag_witness :
    (check_pending_tap_expired c4State 1).1 = some GestureType.Tap ∧
    (check_pending_tap_expired c4State 1).2.pending_tap = false := by
  have h := C4_expiry_consumes_flag c4State 1 0 rfl rfl
    (by rw [durationSince_of_le (by norm_num : (0 : ℝ) ≤ 1)]
        norm_num [c4State, afterOneTap, mkRecognizer, demoThresholds])
  exact ⟨h.1, h.2.1⟩

-- ---------------------------------------------------------------------
-- C6
-- ---------------------------------------------------------------------

/-- C6: within the swipe time budget, a horizontally qualifying motion
(displacement at least the x-span fraction, deviation angle within
tolerance) yields Right when `dx > 0` and Left otherwise — horizontal wins
even if the vertical test would also pass; a vertically qualifying motion
that fails the horizontal test yields Down when `dy > 0` and Up otherwise;
and no swipe is returned once `dt ≥ swipe_time_max`. -/
theorem C6_detect_swipe_direction (s : GestureRecognizer)
    (start current : TouchPoint) :
    ((durationSince current.time start.time < s.thresholds.swipe_time_max ∧
      |current.x - start.x| ≥
        (s.x_range.2 - s.x_range.1) * s.thresholds.swipe_distance_min_pct ∧
      toDegrees (atan2 |current.y - start.y| |current.x - start.x|) ≤
        s.thresholds.angle_tolerance_deg) →
      detect_swipe s start current =
        some (if 0 < current.x - start.x then GestureType.SwipeRight
          else GestureType.SwipeLeft)) ∧
    ((durationSince current.time start.time < s.thresholds.swipe_time_max ∧
      |current.y - start.y| ≥
        (s.y_range.2 - s.y_range.1) * s.thresholds.swipe_distance_min_pct ∧
      toDegrees (atan2 |current.x - start.x| |current.y - start.y|) ≤
        s.thresholds.angle_tolerance_deg ∧
      ¬(|current.x - start.x| ≥
          (s.x_range.2 - s.x_range.1) * s.thresholds.swipe_distance_min_pct ∧
        toDegrees (atan2 |current.y - start.y| |current.x - start.x|) ≤
          s.thresholds.angle_tolerance_deg)) →
      detect_swipe s start current =
        some (if 0 < current.y - start.y then GestureType.SwipeDown
          else GestureType.SwipeUp)) ∧
    (durationSince current.time start.time ≥ s.thresholds.swipe_time_max →
      detect_swipe s start current = none) := by
  refine ⟨?_, ?_, ?_⟩
  · rintro ⟨h1, h2, h3⟩
    simp only [detect_swipe]
    rw [if_neg (not_le.mpr h1), if_pos ⟨h2, h3⟩]
  · rintro ⟨h1, h2, h3, h4⟩
    simp only [detect_swipe]
    rw [if_neg (not_le.mpr h1), if_neg h4, if_pos ⟨h2, h3⟩]
  · intro h1
    simp only [detect_swipe]
    rw [if_pos h1]

/-- C6 witness: the spec's scenario 1, a 700-unit leftward motion in 0.3 s
on the demo thresholds, is classified SwipeLeft. -/
theorem C6_detect_swipe_direction_witness :
    detect_swipe demoRecognizer c6Start c6Current =
      some GestureType.SwipeLeft := by
  have h1 : durationSince c6Current.time c6Start.time <
      demoRecognizer.thresholds.swipe_time_max := by
    simp only [c6Current, c6Start, demoRecognizer, mkRecognizer,
      demoThresholds]
    rw [durationSince_of_le (by norm_num)]
    norm_num
  have h2 : |c6Current.x - c6Start.x| ≥
      (demoRecognizer.x_range.2 - demoRecognizer.x_range.1) *
        demoRecognizer.thresholds.swipe_distance_min_pct := by
    simp only [c6Current, c6Start, demoRecognizer, mkRecognizer,
      demoThresholds]
    rw [show (100 : ℝ) - 800 = -700 by norm_num, abs_neg,
      abs_of_nonneg (by norm_num : (0 : ℝ) ≤ 700)]
    norm_num
  have h3 : toDegrees (atan2 |c6Current.y - c6Start.y|
      |c6Current.x - c6Start.x|) ≤
      demoRecognizer.thresholds.angle_tolerance_deg := by
    simp only [c6Current, c6Start, demoRecognizer, mkRecognizer,
      demoThresholds]
    rw [show (500 : ℝ) - 500 = 0 by norm_num, abs_zero,
      show (100 : ℝ) - 800 = -700 by norm_num, abs_neg,
      abs_of_nonneg (by norm_num : (0 : ℝ) ≤ 700),
      toDegrees_atan2_zero (by norm_num)]
    norm_num
  have h := (C6_detect_swipe_direction demoRecognizer c6Start c6Current).1
    ⟨h1, h2, h3⟩
  rw [h]
  norm_num [c6Current, c6Start]

-- ---------------------------------------------------------------------
-- C5
-- ---------------------------------------------------------------------

/-- C5 counterexample: a single-finger motion that satisfies the long-press
conditions (`dt ≥ long_press_time_min`, distance below `tap_distance_max`)
but is classified SwipeRight, because swipe detection runs first and the
permissive thresholds let the same motion qualify as a swipe. -/
theorem C5_counterexample :
    durationSince c5Current.time c5Start.time ≥
      c5State.thresholds.long_press_time_min ∧
    c5Start.distance_to c5Current < c5State.thresholds.tap_distance_max ∧
    c5State.active_touches.length = 1 ∧
    (recognize_gesture c5State 0.5).1 = some GestureType.SwipeRight := by
  refine ⟨?_, ?_, ?_, ?_⟩
  · simp only [c5Current, c5Start, c5State, mkRecognizer, c5Thresholds]
    rw [durationSince_of_le (by norm_num)]
    norm_num
  · simp only [c5Current, c5Start, c5State, mkRecognizer, c5Thresholds,
      TouchPoint.distance_to]
    rw [show (100 : ℝ) - 600 = -500 by norm_num,
      show (500 : ℝ) - 500 = 0 by norm_num, hypot_zero_right, abs_neg,
      abs_of_nonneg (by norm_num : (0 : ℝ) ≤ 500)]
    norm_num
  · simp [c5State]
  · norm_num [recognize_gesture, detect_swipe, c5State, c5Start, c5Current,
      c5Thresholds, mkRecognizer, durationSince_of_le, abs_of_nonneg,
      abs_of_nonpos, toDegrees_atan2_zero]

/-- C5 (amended): a single-finger touch with `dt ≥ long_press_time_min` and
distance below `tap_distance_max` is never classified Tap or DoubleTap, and
is classified LongPress whenever swipe detection declines; swipe detection
runs first and can pre-empt the long press under permissive thresholds. -/
theorem C5_long_press_unless_swipe (s : GestureRecognizer) (now : ℝ)
    (start current : TouchPoint)
    (hs : s.touch_start = some start) (hc : s.touch_current = some current)
    (hsingle : s.active_touches.length < 2)
    (hdt : durationSince current.time start.time ≥
      s.thresholds.long_press_time_min)
    (hdist : start.distance_to current < s.thresholds.tap_distance_max) :
    (recognize_gesture s now).1 ≠ some GestureType.Tap ∧
    (recognize_gesture s now).1 ≠ some GestureType.DoubleTap ∧
    (detect_swipe s start current = none →
      (recognize_gesture s now).1 = some GestureType.LongPress) := by
  have hpinch : (if 2 ≤ s.active_touches.length then detect_pinch s
      else none) = none := if_neg (by omega)
  cases hsw : detect_swipe s start current with
  | none =>
    have hstat : detect_stationary s start current now =
        (some GestureType.LongPress, s) := by
      simp only [detect_stationary]
      rw [if_pos ⟨hdt, hdist⟩]
    simp only [recognize_gesture, hs, hc, hpinch, hsw, hstat]
    simp
  | some sw =>
    have hmem := detect_swipe_swipes s start current sw hsw
    simp only [recognize_gesture, hs, hc, hpinch, hsw]
    refine ⟨?_, ?_, ?_⟩
    · intro hEq
      rcases hmem with h | h | h | h <;> simp_all
    · intro hEq
      rcases hmem with h | h | h | h <;> simp_all
    · intro hnone
      simp at hnone

/-- C5 witness: a motionless 1.5 s press on the demo thresholds, where
swipe detection declines on time, is classified LongPress. -/
theorem C5_long_press_unless_swipe_witness :
    (recognize_gesture c5WState 1.5).1 = some GestureType.LongPress := by
  have hdt : durationSince c5WCurrent.time c5WStart.time ≥
      c5WState.thresholds.long_press_time_min := by
    simp only [c5WCurrent, c5WStart, c5WState, demoRecognizer, mkRecognizer,
      demoThresholds]
    rw [durationSince_of_le (by norm_num)]
    norm_num
  have hdist : c5WStart.distance_to c5WCurrent <
      c5WState.thresholds.tap_distance_max := by
    simp only [c5WCurrent, c5WStart, c5WState, demoRecognizer, mkRecognizer,
      demoThresholds, TouchPoint.distance_to]
    rw [show (500 : ℝ) - 500 = 0 by norm_num, hypot_zero_right, abs_zero]
    norm_num
  have hsw : detect_swipe c5WState c5WStart c5WCurrent = none := by
    simp only [detect_swipe]
    rw [if_pos]
    simp only [c5WCurrent, c5WStart, c5WState, demoRecognizer, mkRecognizer,
      demoThresholds]
    rw [durationSince_of_le (by norm_num)]
    norm_num
  exact (C5_long_press_unless_swipe c5WState 1.5 c5WStart c5WCurrent rfl rfl
    (by simp [c5WState, demoRecognizer, mkRecognizer]) hdt hdist).2.2 hsw

-- ---------------------------------------------------------------------
-- C2
-- ---------------------------------------------------------------------

/-- C2 counterexample: two distinct tracking ids are active and the primary
vector satisfies every swipe criterion, yet `recognize_gesture` returns
SwipeLeft — pinch detection declined (only two buffered samples) and fell
through to swipe, so pinch does not pre-empt swipe entirely. -/
theorem C2_counterexample :
    2 ≤ c2State.active_touches.length ∧
    (c2State.active_touches.map Prod.fst).Nodup ∧
    durationSince c6Current.time c6Start.time <
      c2State.thresholds.swipe_time_max ∧
    |c6Current.x - c6Start.x| ≥
      (c2State.x_range.2 - c2State.x_range.1) *
        c2State.thresholds.swipe_distance_min_pct ∧
    (recognize_gesture c2State 0.3).1 = some GestureType.SwipeLeft := by
  refine ⟨?_, ?_, ?_, ?_, ?_⟩
  · simp [c2State, demoRecognizer, mkRecognizer]
  · simp [c2State, demoRecognizer, mkRecognizer]
  · simp only [c6Current, c6Start, c2State, demoRecognizer, mkRecognizer,
      demoThresholds]
    rw [durationSince_of_le (by norm_num)]
    norm_num
  · simp only [c6Current, c6Start, c2State, demoRecognizer, mkRecognizer,
      demoThresholds]
    rw [show (100 : ℝ) - 800 = -700 by norm_num, abs_neg,
      abs_of_nonneg (by norm_num : (0 : ℝ) ≤ 700)]
    norm_num
  · norm_num [recognize_gesture, detect_pinch, detect_swipe, c2State,
      c6Start, c6Current, c2Other, demoRecognizer, mkRecognizer,
      demoThresholds, durationSince_of_le, abs_of_nonneg, abs_of_nonpos,
      toDegrees_atan2_zero]

/-- C2 (amended): pinch pre-empts the other detectors exactly when it
produces a result: if two or more tracking ids are active and
`detect_pinch` returns a gesture, `recognize_gesture` returns that gesture
(a PinchIn or PinchOut, never a swipe); when `detect_pinch` declines, swipe
detection proceeds and may fire. -/
theorem C2_pinch_result_preempts (s : GestureRecognizer) (now : ℝ)
    (g : GestureType) (start current : TouchPoint)
    (hs : s.touch_start = some start) (hc : s.touch_current = some current)
    (hmulti : 2 ≤ s.active_touches.length)
    (hpinch : detect_pinch s = some g) :
    (recognize_gesture s now).1 = some g ∧
    (g = GestureType.PinchIn ∨ g = GestureType.PinchOut) := by
  refine ⟨?_, detect_pinch_pinches s g hpinch⟩
  simp only [recognize_gesture, hs, hc, if_pos hmulti, hpinch]

/-- C2 witness: a two-finger history whose separation grew from 100 to 400
is recognized as PinchOut through the pinch branch. -/
theorem C2_pinch_result_preempts_witness :
    (recognize_gesture c2WState 0.3).1 = some GestureType.PinchOut ∧
    (GestureType.PinchOut = GestureType.PinchIn ∨
      GestureType.PinchOut = GestureType.PinchOut) := by
  have hpinch : detect_pinch c2WState = some GestureType.PinchOut := by
    norm_num [detect_pinch, c2WState, c8P1, c8P2, c8P3, c8P4,
      demoRecognizer, mkRecognizer, demoThresholds, TouchPoint.distance_to,
      hypot_zero_right, abs_of_nonneg, abs_of_nonpos]
  exact C2_pinch_result_preempts c2WState 0.3 GestureType.PinchOut c8P3
    c8P1 rfl rfl (by simp [c2WState, demoRecognizer, mkRecognizer]) hpinch

-- ---------------------------------------------------------------------
-- C8
-- ---------------------------------------------------------------------

/-- C8: `detect_pinch` declines on fewer than four buffered samples or
fewer than two active tracking ids; otherwise, with initial separation
taken at the first sample against the earliest later sample of a different
tracking id and final separation at the last sample against the nearest
preceding sample of a different tracking id, and with
`band = initial × pinch_threshold_pct`, it returns PinchIn iff
`final < initial − band`, PinchOut iff `final > initial + band`, and
nothing otherwise. -/
theorem C8_detect_pinch_characterization (s : GestureRecognizer)
    (hpct : 0 ≤ s.thresholds.pinch_threshold_pct) :
    (s.touch_points.length < 4 ∨ s.active_touches.length < 2 →
      detect_pinch s = none) ∧
    (∀ p1f p2f p1l p2l : TouchPoint,
      ¬(s.touch_points.length < 4 ∨ s.active_touches.length < 2) →
      s.touch_points.head? = some p1f →
      (s.touch_points.drop 1).find?
        (fun p => p.tracking_id ≠ p1f.tracking_id) = some p2f →
      s.touch_points.getLast? = some p1l →
      ((s.touch_points.take (s.touch_points.length - 1)).reverse).find?
        (fun p => p.tracking_id ≠ p1l.tracking_id) = some p2l →
      ((detect_pinch s = some GestureType.PinchIn ↔
          p1l.distance_to p2l < p1f.distance_to p2f -
            p1f.distance_to p2f * s.thresholds.pinch_threshold_pct) ∧
       (detect_pinch s = some GestureType.PinchOut ↔
          p1f.distance_to p2f +
            p1f.distance_to p2f * s.thresholds.pinch_threshold_pct <
            p1l.distance_to p2l) ∧
       (detect_pinch s = none ↔
          ¬(p1l.distance_to p2l < p1f.distance_to p2f -
              p1f.distance_to p2f * s.thresholds.pinch_threshold_pct) ∧
          ¬(p1f.distance_to p2f +
              p1f.distance_to p2f * s.thresholds.pinch_threshold_pct <
              p1l.distance_to p2l)))) := by
  constructor
  · intro h
    unfold detect_pinch
    rw [if_pos h]
  · intro p1f p2f p1l p2l hguard h1 h2 h3 h4
    have hband : 0 ≤ p1f.distance_to p2f * s.thresholds.pinch_threshold_pct :=
      mul_nonneg (TouchPoint.distance_to_nonneg _ _) hpct
    have hred : detect_pinch s =
        (if p1l.distance_to p2l < p1f.distance_to p2f -
            p1f.distance_to p2f * s.thresholds.pinch_threshold_pct then
          some GestureType.PinchIn
        else if p1f.distance_to p2f +
            p1f.distance_to p2f * s.thresholds.pinch_threshold_pct <
            p1l.distance_to p2l then
          some GestureType.PinchOut
        else none) := by
      simp only [detect_pinch, if_neg hguard, h1, h2, h3, h4]
    rw [hred]
    split_ifs with hin hout
    · refine ⟨by simp [hin], ?_, ?_⟩
      · constructor
        · intro h
          simp at h
        · intro h
          linarith
      · constructor
        · intro h
          simp at h
        · intro h
          exact absurd hin h.1
    · refine ⟨?_, by simp [hout], ?_⟩
      · constructor
        · intro h
          simp at h
        · intro h
          exact absurd h hin
      · constructor
        · intro h
          simp at h
        · intro h
          exact absurd hout h.2
    · refine ⟨?_, ?_, by simp [hin, hout]⟩
      · constructor
        · intro h
          simp at h
        · intro h
          exact absurd h hin
      · constructor
        · intro h
          simp at h
        · intro h
          exact absurd h hout

/-- C8 witness: the four-sample two-finger history with separation
shrinking from 400 to 100 under a 0.1 band is classified PinchIn. -/
theorem C8_detect_pinch_characterization_witness :
    detect_pinch c8State = some GestureType.PinchIn := by
  have h := ((C8_detect_pinch_characterization c8State
      (by norm_num [c8State, demoRecognizer, mkRecognizer,
        demoThresholds])).2
    c8P1 c8P2 c8P4 c8P3
    (by simp [c8State, demoRecognizer, mkRecognizer])
    rfl rfl rfl rfl).1
  apply h.mpr
  simp only [c8P1, c8P2, c8P3, c8P4, c8State, demoRecognizer, mkRecognizer,
    demoThresholds, TouchPoint.distance_to]
  rw [show (300 : ℝ) - 700 = -400 by norm_num,
    show (550 : ℝ) - 450 = 100 by norm_num,
    show (500 : ℝ) - 500 = 0 by norm_num, hypot_zero_right,
    hypot_zero_right, abs_neg, abs_of_nonneg (by norm_num : (0 : ℝ) ≤ 400),
    abs_of_nonneg (by norm_num : (0 : ℝ) ≤ 100)]
  norm_num

-- ---------------------------------------------------------------------
-- C1 (amended bound)
-- ---------------------------------------------------------------------

theorem processEvent_length_le (s : GestureRecognizer) (now : ℝ)
    (e : TouchEvent) : (processEvent s now e).2.length ≤ 2 := by
  cases e with
  | PositionX x => simp [processEvent]
  | PositionY y => simp [processEvent]
  | TrackingId i => simp [processEvent]
  | FingerUp =>
    simp only [processEvent, List.length_append]
    have h1 : (check_pending_tap_expired s now).1.toList.length ≤ 1 := by
      cases (check_pending_tap_expired s now).1 <;> simp
    have h2 : (recognize_gesture
        (check_pending_tap_expired s now).2 now).1.toList.length ≤ 1 := by
      cases (recognize_gesture (check_pending_tap_expired s now).2 now).1 <;>
        simp
    omega
  | SynReport =>
    simp only [processEvent]
    cases (check_pending_tap_expired (flush_pending s now) now).1 <;> simp

/-- C1 counterexample: a batch holding a quick tap followed by a long
press, with the second touch starting after the double-tap window, returns
two gestures — the first touch's deferred Tap expires during the second
touch and the second touch's LongPress follows — refuting "at most one
gesture per batch". -/
theorem C1_counterexample :
    ¬((process_touch_events demoRecognizer
        (tapTouch 0 500 500 0 0.05 0.05 ++
          tapTouch 0 500 500 1 2 2)).2.length ≤ 1) := by
  rw [show demoRecognizer =
      mkRecognizer demoThresholds (0, 1000) (0, 1000) from rfl,
    process_touch_events_append,
    run_tap_fresh demoThresholds (0, 1000) (0, 1000) 500 500 0 0.05 0.05
      (by norm_num [demoThresholds]) (by norm_num [demoThresholds])
      (by norm_num) (by norm_num [demoThresholds])
      (by norm_num [demoThresholds]) (by norm_num [demoThresholds])]
  dsimp only
  rw [run_tap_long_press_after_tap demoThresholds (0, 1000) (0, 1000)
    500 500 500 500 0.05 1 2 2
    (by norm_num [demoThresholds]) (by norm_num [demoThresholds])
    (by norm_num) (by norm_num [demoThresholds]) (by norm_num)
    (by norm_num [demoThresholds]) (by norm_num [demoThresholds])]
  simp

/-- C1 (amended): each detection invocation emits at most one gesture, but
`process_touch_events` can return more than one gesture per batch — a
single FingerUp may push both an expired Tap and the recognized gesture —
so a batch of n events yields at most 2·n gestures, not at most one. -/
theorem C1_batch_gesture_bound (s : GestureRecognizer)
    (events : List (ℝ × TouchEvent)) :
    (process_touch_events s events).2.length ≤ 2 * events.length := by
  induction events generalizing s with
  | nil => simp [process_touch_events]
  | cons te rest ih =>
    obtain ⟨t, e⟩ := te
    simp only [process_touch_events, List.length_append, List.length_cons]
    have h1 := processEvent_length_le s t e
    have h2 := ih (processEvent s t e).1
    omega

-- ---------------------------------------------------------------------
-- C3
-- ---------------------------------------------------------------------

/-- C3 counterexample: with `long_press_time_min` below `tap_time_max`,
two touches that satisfy every condition stated by the claim (dt below
`tap_time_max`, zero displacement below `tap_distance_max`, second
processed within `double_tap_interval` and `double_tap_distance_max` of
the first) are classified as two LongPresses and produce no DoubleTap. -/
theorem C3_counterexample :
    (0.15 : ℝ) - 0 < c3BadThresholds.tap_time_max ∧
    (0.35 : ℝ) - 0.2 < c3BadThresholds.tap_time_max ∧
    (0 : ℝ) < c3BadThresholds.tap_distance_max ∧
    (0.35 : ℝ) - 0.15 < c3BadThresholds.double_tap_interval ∧
    (0 : ℝ) < c3BadThresholds.double_tap_distance_max ∧
    (process_touch_events
        (mkRecognizer c3BadThresholds (0, 1000) (0, 1000))
        (tapTouch 0 500 500 0 0.15 0.15 ++
          tapTouch 0 500 500 0.2 0.35 0.35)).2 =
      [GestureType.LongPress, GestureType.LongPress] := by
  refine ⟨by norm_num [c3BadThresholds, demoThresholds],
    by norm_num [c3BadThresholds, demoThresholds],
    by norm_num [c3BadThresholds, demoThresholds],
    by norm_num [c3BadThresholds, demoThresholds],
    by norm_num [c3BadThresholds, demoThresholds], ?_⟩
  rw [process_touch_events_append,
    run_tap_long_press_fresh c3BadThresholds (0, 1000) (0, 1000)
      500 500 0 0.15 0.15
      (by norm_num [c3BadThresholds, demoThresholds])
      (by norm_num [c3BadThresholds, demoThresholds]) (by norm_num)
      (by norm_num [c3BadThresholds, demoThresholds])
      (by norm_num [c3BadThresholds, demoThresholds])]
  dsimp only
  rw [run_tap_long_press_fresh c3BadThresholds (0, 1000) (0, 1000)
    500 500 0.2 0.35 0.35
    (by norm_num [c3BadThresholds, demoThresholds])
    (by norm_num [c3BadThresholds, demoThresholds]) (by norm_num)
    (by norm_num [c3BadThresholds, demoThresholds])
    (by norm_num [c3BadThresholds, demoThresholds])]
  simp

/-- C3 (amended): two qualifying taps — each with dt below `tap_time_max`
AND below `long_press_time_min`, and with zero displacement below
`tap_distance_max` — at the same location, the second processed within
`double_tap_interval` of the first, yield exactly one DoubleTap and no
standalone Tap for either touch (given a non-degenerate calibration and
positive distance thresholds). -/
theorem C3_double_tap (th : ValidatedThresholds) (xr yr : ℝ × ℝ)
    (x y t1 t2 f1 t3 t4 f2 : ℝ)
    (hxs : 0 < (xr.2 - xr.1) * th.swipe_distance_min_pct)
    (hys : 0 < (yr.2 - yr.1) * th.swipe_distance_min_pct)
    (h12 : t1 ≤ t2) (h2f1 : t2 ≤ f1) (hf13 : f1 ≤ t3) (h34 : t3 ≤ t4)
    (h4f2 : t4 ≤ f2)
    (hdt1 : t2 - t1 < th.tap_time_max)
    (hdlp1 : t2 - t1 < th.long_press_time_min)
    (hdt2 : t4 - t3 < th.tap_time_max)
    (hdlp2 : t4 - t3 < th.long_press_time_min)
    (hgap : f2 - f1 < th.double_tap_interval)
    (htdm : 0 < th.tap_distance_max)
    (hdtdm : 0 < th.double_tap_distance_max) :
    (process_touch_events (mkRecognizer th xr yr)
      (tapTouch 0 x y t1 t2 f1 ++ tapTouch 0 x y t3 t4 f2)).2 =
      [GestureType.DoubleTap] := by
  rw [process_touch_events_append,
    run_tap_fresh th xr yr x y t1 t2 f1 hxs hys h12 hdt1 hdlp1 htdm]
  dsimp only
  rw [run_tap_double th xr yr x y f1 t3 t4 f2 hxs hys hf13 h34 h4f2 hdt2
    hdlp2 htdm hgap hdtdm]
  simp

/-- C3 witness: the amended theorem at the spec's scenario-2 numbers — two
50 ms taps at (500, 500), 150 ms apart, on the demo thresholds. -/
theorem C3_double_tap_witness :
    (process_touch_events (mkRecognizer demoThresholds (0, 1000) (0, 1000))
      (tapTouch 0 500 500 0 0.05 0.05 ++
        tapTouch 0 500 500 0.1 0.15 0.2)).2 = [GestureType.DoubleTap] :=
  C3_double_tap demoThresholds (0, 1000) (0, 1000) 500 500 0 0.05 0.05
    0.1 0.15 0.2
    (by norm_num [demoThresholds]) (by norm_num [demoThresholds])
    (by norm_num) (by norm_num) (by norm_num) (by norm_num) (by norm_num)
    (by norm_num [demoThresholds]) (by norm_num [demoThresholds])
    (by norm_num [demoThresholds]) (by norm_num [demoThresholds])
    (by norm_num [demoThresholds]) (by norm_num [demoThresholds])
    (by norm_num [demoThresholds])

end Bodgestr
